import Mathlib

/-!
# Verification of the news-generator control layer

Shallow embedding of the repository's three source files:

* `src/src/config/config.py` — the `Config` class: environment loading with
  defaults, `validate_required`, `get_ai_model`, `is_production`, `as_dict`;
* `src/scheduler.py` — `create_schedule` (check-then-create registration of a
  Temporal Schedule per app) and the `main` / `__main__` control flow;
* `src/worker.py` — the worker process `main` / `__main__` control flow.

Python strings are `String`; `Optional[str]` is `Option String`; Python
truthiness of a string value (`not value`) is emptiness. The single float
literal `0.7` is carried as the rational `7/10`: it is only constructed and
stored, never computed with, so no floating-point semantics are involved.
The Temporal backend is external; it is modelled by its observable responses
(fetch outcomes, creation outcomes, connection outcomes) and, for the
idempotence arguments, by a well-behaved association-list store keyed by
schedule id.
-/

namespace NewsGen

/-- Python truthiness of a `str` value: `not value` is true exactly on `""`. -/
def truthyStr (s : String) : Bool := !(s == "")

/-- Python truthiness of an `Optional[str]` value: `None` and `""` are falsy. -/
def truthyOpt : Option String → Bool
  | none => false
  | some s => !(s == "")

/-- The process environment as seen by `os.getenv`: each variable is either
absent (`none`) or set to a string (possibly empty). Only the variables the
`Config` class reads are carried. -/
structure Env where
  TEMPORAL_ADDRESS : Option String
  TEMPORAL_NAMESPACE : Option String
  TEMPORAL_API_KEY : Option String
  TEMPORAL_TASK_QUEUE : Option String
  DATABASE_URL : Option String
  GOOGLE_API_KEY : Option String
  OPENAI_API_KEY : Option String
  ANTHROPIC_API_KEY : Option String
  DATAFORSEO_LOGIN : Option String
  DATAFORSEO_PASSWORD : Option String
  SERPER_API_KEY : Option String
  ZEP_API_KEY : Option String
  DEFAULT_APP : Option String
  ENVIRONMENT : Option String
  LOG_LEVEL : Option String
deriving DecidableEq

/-- `os.getenv(name, default)`: the default is substituted only when the
variable is absent; an explicitly empty value stays empty. -/
def getenvD (v : Option String) (d : String) : String := v.getD d

/-- The `Config` class of `src/src/config/config.py`, after class-body
initialisation from the environment. Fields keep the source's names. -/
structure Config where
  TEMPORAL_ADDRESS : String
  TEMPORAL_NAMESPACE : String
  TEMPORAL_API_KEY : Option String
  TEMPORAL_TASK_QUEUE : String
  DATABASE_URL : String
  GOOGLE_API_KEY : Option String
  OPENAI_API_KEY : Option String
  ANTHROPIC_API_KEY : Option String
  DATAFORSEO_LOGIN : Option String
  DATAFORSEO_PASSWORD : Option String
  SERPER_API_KEY : Option String
  ZEP_API_KEY : Option String
  DEFAULT_APP : String
  ENVIRONMENT : String
  LOG_LEVEL : String
deriving DecidableEq

/-- Class-body initialisation of `Config` from the environment
(`os.getenv` calls with the defaults written in the source). -/
def loadConfig (e : Env) : Config where
  TEMPORAL_ADDRESS := getenvD e.TEMPORAL_ADDRESS "localhost:7233"
  TEMPORAL_NAMESPACE := getenvD e.TEMPORAL_NAMESPACE "default"
  TEMPORAL_API_KEY := e.TEMPORAL_API_KEY
  TEMPORAL_TASK_QUEUE := getenvD e.TEMPORAL_TASK_QUEUE "quest-content-queue"
  DATABASE_URL := getenvD e.DATABASE_URL ""
  GOOGLE_API_KEY := e.GOOGLE_API_KEY
  OPENAI_API_KEY := e.OPENAI_API_KEY
  ANTHROPIC_API_KEY := e.ANTHROPIC_API_KEY
  DATAFORSEO_LOGIN := e.DATAFORSEO_LOGIN
  DATAFORSEO_PASSWORD := e.DATAFORSEO_PASSWORD
  SERPER_API_KEY := e.SERPER_API_KEY
  ZEP_API_KEY := e.ZEP_API_KEY
  DEFAULT_APP := getenvD e.DEFAULT_APP "placement"
  ENVIRONMENT := getenvD e.ENVIRONMENT "development"
  LOG_LEVEL := getenvD e.LOG_LEVEL "info"

/-- The `required` dict of `Config.validate_required`, in source order:
each required setting's name paired with the truthiness of its value. -/
def requiredPairs (c : Config) : List (String × Bool) :=
  [ ("TEMPORAL_ADDRESS", truthyStr c.TEMPORAL_ADDRESS),
    ("TEMPORAL_NAMESPACE", truthyStr c.TEMPORAL_NAMESPACE),
    ("TEMPORAL_TASK_QUEUE", truthyStr c.TEMPORAL_TASK_QUEUE),
    ("DATAFORSEO_LOGIN", truthyOpt c.DATAFORSEO_LOGIN),
    ("DATAFORSEO_PASSWORD", truthyOpt c.DATAFORSEO_PASSWORD),
    ("SERPER_API_KEY", truthyOpt c.SERPER_API_KEY) ]

/-- `has_ai` in `Config.validate_required`: at least one AI provider key. -/
def hasAI (c : Config) : Bool :=
  truthyOpt c.GOOGLE_API_KEY || truthyOpt c.OPENAI_API_KEY ||
    truthyOpt c.ANTHROPIC_API_KEY

/-- The synthetic missing item appended when no AI provider key is present. -/
def aiMissingItem : String :=
  "GOOGLE_API_KEY or OPENAI_API_KEY or ANTHROPIC_API_KEY"

/-- `Config.validate_required`: the list of missing required variables,
in dict order, with the combined AI item appended when no AI key is set. -/
def Config.validate_required (c : Config) : List String :=
  let missing := ((requiredPairs c).filter (fun p => !p.2)).map Prod.fst
  if !(hasAI c) then missing ++ [aiMissingItem] else missing

/-- `Config.get_ai_model`: fixed-priority provider choice, raising
`ValueError` (modelled as `Except.error`) when no key is configured. -/
def Config.get_ai_model (c : Config) : Except String (String × String) :=
  if truthyOpt c.ANTHROPIC_API_KEY then
    Except.ok ("anthropic", "claude-3-5-haiku-20241022")
  else if truthyOpt c.GOOGLE_API_KEY then
    Except.ok ("google-gla", "gemini-1.5-flash")
  else if truthyOpt c.OPENAI_API_KEY then
    Except.ok ("openai", "gpt-4o-mini")
  else
    Except.error "No AI API key configured"

/-- A value of the dict returned by `Config.as_dict`: a string setting or a
`has_*` boolean. -/
inductive ConfigValue where
  | str (s : String)
  | boolean (b : Bool)
deriving DecidableEq

/-- `Config.as_dict`: the sanitized export — plain non-secret settings plus
presence booleans for every credential, in source order. -/
def Config.as_dict (c : Config) : List (String × ConfigValue) :=
  [ ("temporal_address", ConfigValue.str c.TEMPORAL_ADDRESS),
    ("temporal_namespace", ConfigValue.str c.TEMPORAL_NAMESPACE),
    ("task_queue", ConfigValue.str c.TEMPORAL_TASK_QUEUE),
    ("environment", ConfigValue.str c.ENVIRONMENT),
    ("default_app", ConfigValue.str c.DEFAULT_APP),
    ("has_database", ConfigValue.boolean (truthyStr c.DATABASE_URL)),
    ("has_dataforseo", ConfigValue.boolean
      (truthyOpt c.DATAFORSEO_LOGIN && truthyOpt c.DATAFORSEO_PASSWORD)),
    ("has_serper", ConfigValue.boolean (truthyOpt c.SERPER_API_KEY)),
    ("has_zep", ConfigValue.boolean (truthyOpt c.ZEP_API_KEY)),
    ("has_ai", ConfigValue.boolean
      (truthyOpt c.GOOGLE_API_KEY || truthyOpt c.OPENAI_API_KEY ||
        truthyOpt c.ANTHROPIC_API_KEY)) ]

/-- `Config.is_production`. -/
def Config.is_production (c : Config) : Bool :=
  c.ENVIRONMENT.toLower == "production"

/-! ## Schedule registration (`src/scheduler.py`) -/

/-- The single structured workflow argument built in `create_schedule`.
`min_relevance_score` carries the literal `0.7` as the rational `7/10`. -/
structure WorkflowInput where
  app : String
  min_relevance_score : Rat
  auto_create_articles : Bool
  max_articles_to_create : Nat
deriving DecidableEq

/-- `temporalio.api.enums.v1.ScheduleOverlapPolicy`; `create_schedule`
passes `SKIP`. -/
inductive OverlapPolicy where
  | UNSPECIFIED
  | SKIP
  | BUFFER_ONE
  | BUFFER_ALL
  | CANCEL_OTHER
  | TERMINATE_OTHER
  | ALLOW_ALL
deriving DecidableEq

/-- The `StartWorkflowAction` built in `create_schedule`: workflow type,
single-element positional input list, target queue, and the numeric
id-reuse policy (the source passes `1`, allow reuse). -/
structure StartWorkflowAction where
  workflow_type : String
  input : List WorkflowInput
  task_queue : String
  workflow_id_reuse_policy : Nat
deriving DecidableEq

/-- `ScheduleSpec`: the cron trigger. -/
structure ScheduleSpec where
  cron : String
deriving DecidableEq

/-- `ScheduleDescription`: trigger spec plus action. -/
structure ScheduleDescription where
  schedule : ScheduleSpec
  action : StartWorkflowAction
deriving DecidableEq

/-- Everything `client.create_schedule` submits besides the id: the
description and the overlap policy. This is what the backend stores. -/
structure ScheduleRecord where
  description : ScheduleDescription
  overlap_policy : OverlapPolicy
deriving DecidableEq

/-- `schedule_id = f"news-monitor-{app}"`. -/
def schedule_id_of (app : String) : String := "news-monitor-" ++ app

/-- The exact record `create_schedule` submits for a given configured queue
and app: daily 9 AM UTC cron, `NewsCreationWorkflow`, fixed defaults in the
input payload, id-reuse policy 1, overlap policy SKIP. -/
def builtRecord (queue app : String) : ScheduleRecord where
  description :=
    { schedule := { cron := "0 9 * * *" }
      action :=
        { workflow_type := "NewsCreationWorkflow"
          input := [ { app := app
                       min_relevance_score := 7/10
                       auto_create_articles := true
                       max_articles_to_create := 3 } ]
          task_queue := queue
          workflow_id_reuse_policy := 1 } }
  overlap_policy := OverlapPolicy.SKIP

/-- Replace the `app` field throughout a record's workflow input. -/
def withApp (r : ScheduleRecord) (a : String) : ScheduleRecord :=
  { r with description :=
      { r.description with action :=
          { r.description.action with input :=
              r.description.action.input.map (fun i => { i with app := a }) } } }

/-- Observable result of `client.get_schedule`, the backend being external:
it returns the schedule, fails with a not-found error, or fails with any
other backend/connection error. -/
inductive FetchOutcome where
  | success
  | notFoundErr
  | backendErr
deriving DecidableEq

/-- Observable result of `client.create_schedule`. -/
inductive CreateOutcome where
  | success
  | alreadyExistsErr
  | backendErr
deriving DecidableEq

/-- Result of one `create_schedule` call as seen by its caller. -/
inductive Outcome where
  | alreadyExists
  | created
  | raised
deriving DecidableEq

/-- Observable client-facing events of the two processes. -/
inductive PEvent where
  | connectAttempt
  | fetchAttempt (key : String)
  | createAttempt (key : String) (rec : ScheduleRecord)
  | bindQueue (queue : String) (workflows : List String) (activities : List String)
  | dispatchLoop
  | closeSession
deriving DecidableEq

/-- Control flow of `create_schedule(client, app, ...)` given the backend's
responses: a successful fetch returns "already exists" at once; `except
Exception: pass` makes EVERY fetch failure fall through to creation; a
creation failure is re-raised. Returns the caller-visible outcome and the
trace of client calls. -/
def create_schedule_go (queue app : String)
    (fo : FetchOutcome) (co : CreateOutcome) : Outcome × List PEvent :=
  let key := schedule_id_of app
  match fo with
  | FetchOutcome.success => (Outcome.alreadyExists, [PEvent.fetchAttempt key])
  | _ =>
    match co with
    | CreateOutcome.success =>
        (Outcome.created,
         [PEvent.fetchAttempt key, PEvent.createAttempt key (builtRecord queue app)])
    | _ =>
        (Outcome.raised,
         [PEvent.fetchAttempt key, PEvent.createAttempt key (builtRecord queue app)])

/-! ### A well-behaved backend store, for the idempotence guarantee -/

/-- Backend schedule store: association list from schedule id to record. -/
def BackendState := List (String × ScheduleRecord)

/-- First record stored under a key, if any. -/
def lookupSchedule : BackendState → String → Option ScheduleRecord
  | [], _ => none
  | (k, r) :: rest, key => if k = key then some r else lookupSchedule rest key

/-- Number of records stored under a key. -/
def countKey : BackendState → String → Nat
  | [], _ => 0
  | (k, _) :: rest, key => (if k = key then 1 else 0) + countKey rest key

/-- A well-behaved backend's fetch: succeeds exactly when the key is
present, otherwise fails with the not-found error. -/
def wellFetch (st : BackendState) (key : String) : FetchOutcome :=
  match lookupSchedule st key with
  | some _ => FetchOutcome.success
  | none => FetchOutcome.notFoundErr

/-- A well-behaved backend's conditional create: fails with
already-exists exactly when the key is present. -/
def wellCreate (st : BackendState) (key : String) : CreateOutcome :=
  match lookupSchedule st key with
  | some _ => CreateOutcome.alreadyExistsErr
  | none => CreateOutcome.success

/-- One `create_schedule` call against the well-behaved store: outcome,
updated store (the record is inserted exactly when creation succeeded),
and client-call trace. -/
def stepSchedule (queue : String) (st : BackendState) (app : String) :
    Outcome × BackendState × List PEvent :=
  let key := schedule_id_of app
  let r := create_schedule_go queue app (wellFetch st key) (wellCreate st key)
  if r.1 = Outcome.created then (r.1, (key, builtRecord queue app) :: st, r.2)
  else (r.1, st, r.2)

/-- `n` sequential `create_schedule` calls for the same app. -/
def iterateSchedule (queue app : String) : Nat → BackendState → BackendState
  | 0, st => st
  | n + 1, st => iterateSchedule queue app n (stepSchedule queue st app).2.1

/-! ## Process control flow (`main` and `__main__` of both files) -/

/-- Result of `Client.connect`, the backend being external. -/
inductive ConnectOutcome where
  | success
  | failure
deriving DecidableEq

/-- How an async `main()` coroutine of either process ends:
`sys.exit(code)` (a propagating `SystemExit`), a normal return, a
propagating `Exception`, or a `KeyboardInterrupt` surfacing out of a
blocking await. -/
inductive MainResult where
  | exited (code : Nat)
  | completed
  | raisedExc
  | interruptedKI
deriving DecidableEq

/-- The `__main__` guard shared by both files: `KeyboardInterrupt` exits 0,
any other `Exception` exits 1, `SystemExit(code)` passes `code` through, a
normal return exits 0. `ki` is an interrupt delivered outside `main`'s own
awaits (still caught by the same `except KeyboardInterrupt`). -/
def process_exit_code (r : MainResult) (ki : Bool) : Nat :=
  if ki then 0
  else
    match r with
    | MainResult.exited code => code
    | MainResult.completed => 0
    | MainResult.raisedExc => 1
    | MainResult.interruptedKI => 0

/-- The fixed app list of `scheduler.py`'s `main`. -/
def startupApps : List (String × String) :=
  [ ("placement", "Placement Agent Directory"),
    ("relocation", "Global Relocation Directory") ]

/-- The sequential per-app registration loop of `main`: runs
`create_schedule` for each app in order, stopping at the first raised
exception (which propagates out of `main`). Returns whether an exception
escaped and the accumulated client-call trace. -/
def run_apps (queue : String) (f : String → FetchOutcome)
    (cr : String → CreateOutcome) : List (String × String) → Bool × List PEvent
  | [] => (false, [])
  | (app, _) :: rest =>
    let key := schedule_id_of app
    let r := create_schedule_go queue app (f key) (cr key)
    if r.1 = Outcome.raised then (true, r.2)
    else
      let next := run_apps queue f cr rest
      (next.1, r.2 ++ next.2)

/-- `scheduler.py`'s `main()`: validate configuration (exit 1 when
something is missing, before any connection), connect (exit 1 on failure),
register each app sequentially (an exception propagates immediately), and
only after all registrations succeed call `client.close()`. The backend's
per-key responses are the parameters `f` and `cr`. -/
def scheduler_main (c : Config) (conn : ConnectOutcome)
    (f : String → FetchOutcome) (cr : String → CreateOutcome) :
    MainResult × List PEvent :=
  if c.validate_required ≠ [] then (MainResult.exited 1, [])
  else
    match conn with
    | ConnectOutcome.failure => (MainResult.exited 1, [PEvent.connectAttempt])
    | ConnectOutcome.success =>
      let r := run_apps c.TEMPORAL_TASK_QUEUE f cr startupApps
      if r.1 then (MainResult.raisedExc, PEvent.connectAttempt :: r.2)
      else
        (MainResult.completed,
         PEvent.connectAttempt :: r.2 ++ [PEvent.closeSession])

/-! ## Worker process (`src/worker.py`) -/

/-- The workflow registry passed to `Worker(...)`. -/
def worker_workflows : List String := ["NewsCreationWorkflow"]

/-- The activity registry passed to `Worker(...)`, in source order. -/
def worker_activities : List String :=
  [ "dataforseo_news_search",
    "serper_news_search",
    "assess_news_batch",
    "get_recent_articles_from_neon",
    "query_zep_for_context",
    "build_intelligent_video_prompt" ]

/-- How the blocking `worker.run()` ends, the dispatch loop being the
external client's: interrupted by the operator, or failed with an
exception. -/
inductive RunOutcome where
  | interruptedRun
  | failedRun
deriving DecidableEq

/-- `worker.py`'s `main()`: validate configuration (exit 1 when something
is missing, before any connection), connect (exit 1 on failure), construct
the `Worker` binding the configured queue to the fixed handler registries,
and block in `worker.run()` until interrupt or failure. No exit path calls
`client.close()`. -/
def worker_main (c : Config) (conn : ConnectOutcome) (ro : RunOutcome) :
    MainResult × List PEvent :=
  if c.validate_required ≠ [] then (MainResult.exited 1, [])
  else
    match conn with
    | ConnectOutcome.failure => (MainResult.exited 1, [PEvent.connectAttempt])
    | ConnectOutcome.success =>
      let tr := [ PEvent.connectAttempt,
                  PEvent.bindQueue c.TEMPORAL_TASK_QUEUE worker_workflows
                    worker_activities,
                  PEvent.dispatchLoop ]
      match ro with
      | RunOutcome.interruptedRun => (MainResult.interruptedKI, tr)
      | RunOutcome.failedRun => (MainResult.raisedExc, tr)

/-- Count of creation submissions for a given key in a trace. -/
def countCreates (tr : List PEvent) (key : String) : Nat :=
  (tr.filter (fun e =>
    match e with
    | PEvent.createAttempt k _ => k == key
    | _ => false)).length

/-! ## Concrete instances used as witnesses -/

/-- A fully valid concrete configuration. -/
def cfgValid : Config where
  TEMPORAL_ADDRESS := "localhost:7233"
  TEMPORAL_NAMESPACE := "default"
  TEMPORAL_API_KEY := none
  TEMPORAL_TASK_QUEUE := "quest-content-queue"
  DATABASE_URL := ""
  GOOGLE_API_KEY := none
  OPENAI_API_KEY := none
  ANTHROPIC_API_KEY := some "anthropic-key"
  DATAFORSEO_LOGIN := some "login"
  DATAFORSEO_PASSWORD := some "password"
  SERPER_API_KEY := some "serper-key"
  ZEP_API_KEY := none
  DEFAULT_APP := "placement"
  ENVIRONMENT := "development"
  LOG_LEVEL := "info"

/-- A concrete environment with every variable absent. -/
def envEmpty : Env where
  TEMPORAL_ADDRESS := none
  TEMPORAL_NAMESPACE := none
  TEMPORAL_API_KEY := none
  TEMPORAL_TASK_QUEUE := none
  DATABASE_URL := none
  GOOGLE_API_KEY := none
  OPENAI_API_KEY := none
  ANTHROPIC_API_KEY := none
  DATAFORSEO_LOGIN := none
  DATAFORSEO_PASSWORD := none
  SERPER_API_KEY := none
  ZEP_API_KEY := none
  DEFAULT_APP := none
  ENVIRONMENT := none
  LOG_LEVEL := none

/-- A configuration missing only the Serper credential. -/
def cfgNoSerper : Config :=
  { cfgValid with SERPER_API_KEY := none }

/-- A configuration without any AI-provider credential. -/
def cfgNoAI : Config :=
  { cfgValid with ANTHROPIC_API_KEY := none }

/-- A configuration whose task queue is explicitly empty. -/
def cfgNoQueue : Config :=
  { cfgValid with TEMPORAL_TASK_QUEUE := "" }

/-- `cfgValid` with every credential replaced by a different non-empty
secret: same presence pattern, different secret values. -/
def cfgValidOtherSecrets : Config :=
  { cfgValid with
      ANTHROPIC_API_KEY := some "another-anthropic-key"
      DATAFORSEO_LOGIN := some "another-login"
      DATAFORSEO_PASSWORD := some "another-password"
      SERPER_API_KEY := some "another-serper-key" }

/-! ## Helper lemmas on configuration validation -/

/-- `validate_required` is empty exactly when every required setting is
truthy and at least one AI key is present. -/
theorem validate_required_eq_nil_iff (c : Config) :
    c.validate_required = [] ↔
      (truthyStr c.TEMPORAL_ADDRESS = true ∧
       truthyStr c.TEMPORAL_NAMESPACE = true ∧
       truthyStr c.TEMPORAL_TASK_QUEUE = true ∧
       truthyOpt c.DATAFORSEO_LOGIN = true ∧
       truthyOpt c.DATAFORSEO_PASSWORD = true ∧
       truthyOpt c.SERPER_API_KEY = true ∧
       hasAI c = true) := by
  cases h1 : truthyStr c.TEMPORAL_ADDRESS <;>
  cases h2 : truthyStr c.TEMPORAL_NAMESPACE <;>
  cases h3 : truthyStr c.TEMPORAL_TASK_QUEUE <;>
  cases h4 : truthyOpt c.DATAFORSEO_LOGIN <;>
  cases h5 : truthyOpt c.DATAFORSEO_PASSWORD <;>
  cases h6 : truthyOpt c.SERPER_API_KEY <;>
  cases h7 : hasAI c <;>
  simp [Config.validate_required, requiredPairs, h1, h2, h3, h4, h5, h6, h7]

/-- For any name other than the synthetic AI item, membership in
`validate_required` is the presence of a falsy entry of that name in the
required dict. -/
theorem mem_validate_required (c : Config) (name : String)
    (h : name ≠ aiMissingItem) :
    name ∈ c.validate_required ↔ (name, false) ∈ requiredPairs c := by
  unfold Config.validate_required
  by_cases hai : hasAI c
  · simp only [hai]
    simp [requiredPairs]
  · simp only [hai, Bool.not_true, Bool.not_false, if_true, if_false,
      List.mem_append, List.mem_singleton]
    simp only [h, or_false]
    simp [requiredPairs]

/-! ## Claims about the configuration provider -/

/-- C4: `validate_required` returns the set of missing required settings —
an environment whose sole falsy required setting is the i-th yields exactly
the i-th name (exactly that singleton when an AI key is present, and that
name counted once regardless); an environment with no AI credential gets
the combined AI item exactly once; an empty result characterises a valid
environment. -/
theorem C4_validate_required_completeness (c : Config) :
    ((truthyStr c.TEMPORAL_ADDRESS = false →
      truthyStr c.TEMPORAL_NAMESPACE = true →
      truthyStr c.TEMPORAL_TASK_QUEUE = true →
      truthyOpt c.DATAFORSEO_LOGIN = true →
      truthyOpt c.DATAFORSEO_PASSWORD = true →
      truthyOpt c.SERPER_API_KEY = true →
      List.count "TEMPORAL_ADDRESS" c.validate_required = 1 ∧
        (hasAI c = true → c.validate_required = ["TEMPORAL_ADDRESS"]))
    ∧ (truthyStr c.TEMPORAL_ADDRESS = true →
      truthyStr c.TEMPORAL_NAMESPACE = false →
      truthyStr c.TEMPORAL_TASK_QUEUE = true →
      truthyOpt c.DATAFORSEO_LOGIN = true →
      truthyOpt c.DATAFORSEO_PASSWORD = true →
      truthyOpt c.SERPER_API_KEY = true →
      List.count "TEMPORAL_NAMESPACE" c.validate_required = 1 ∧
        (hasAI c = true → c.validate_required = ["TEMPORAL_NAMESPACE"]))
    ∧ (truthyStr c.TEMPORAL_ADDRESS = true →
      truthyStr c.TEMPORAL_NAMESPACE = true →
      truthyStr c.TEMPORAL_TASK_QUEUE = false →
      truthyOpt c.DATAFORSEO_LOGIN = true →
      truthyOpt c.DATAFORSEO_PASSWORD = true →
      truthyOpt c.SERPER_API_KEY = true →
      List.count "TEMPORAL_TASK_QUEUE" c.validate_required = 1 ∧
        (hasAI c = true → c.validate_required = ["TEMPORAL_TASK_QUEUE"]))
    ∧ (truthyStr c.TEMPORAL_ADDRESS = true →
      truthyStr c.TEMPORAL_NAMESPACE = true →
      truthyStr c.TEMPORAL_TASK_QUEUE = true →
      truthyOpt c.DATAFORSEO_LOGIN = false →
      truthyOpt c.DATAFORSEO_PASSWORD = true →
      truthyOpt c.SERPER_API_KEY = true →
      List.count "DATAFORSEO_LOGIN" c.validate_required = 1 ∧
        (hasAI c = true → c.validate_required = ["DATAFORSEO_LOGIN"]))
    ∧ (truthyStr c.TEMPORAL_ADDRESS = true →
      truthyStr c.TEMPORAL_NAMESPACE = true →
      truthyStr c.TEMPORAL_TASK_QUEUE = true →
      truthyOpt c.DATAFORSEO_LOGIN = true →
      truthyOpt c.DATAFORSEO_PASSWORD = false →
      truthyOpt c.SERPER_API_KEY = true →
      List.count "DATAFORSEO_PASSWORD" c.validate_required = 1 ∧
        (hasAI c = true → c.validate_required = ["DATAFORSEO_PASSWORD"]))
    ∧ (truthyStr c.TEMPORAL_ADDRESS = true →
      truthyStr c.TEMPORAL_NAMESPACE = true →
      truthyStr c.TEMPORAL_TASK_QUEUE = true →
      truthyOpt c.DATAFORSEO_LOGIN = true →
      truthyOpt c.DATAFORSEO_PASSWORD = true →
      truthyOpt c.SERPER_API_KEY = false →
      List.count "SERPER_API_KEY" c.validate_required = 1 ∧
        (hasAI c = true → c.validate_required = ["SERPER_API_KEY"]))
    ∧ (hasAI c = false →
        List.count aiMissingItem c.validate_required = 1)
    ∧ (c.validate_required = [] ↔
        ((∀ p ∈ requiredPairs c, p.2 = true) ∧ hasAI c = true))) := by
  refine ⟨?_, ?_, ?_, ?_, ?_, ?_, ?_, ?_⟩
  · intro h1 h2 h3 h4 h5 h6
    cases hai : hasAI c <;>
    simp [Config.validate_required, requiredPairs, aiMissingItem,
      h1, h2, h3, h4, h5, h6, hai]
  · intro h1 h2 h3 h4 h5 h6
    cases hai : hasAI c <;>
    simp [Config.validate_required, requiredPairs, aiMissingItem,
      h1, h2, h3, h4, h5, h6, hai]
  · intro h1 h2 h3 h4 h5 h6
    cases hai : hasAI c <;>
    simp [Config.validate_required, requiredPairs, aiMissingItem,
      h1, h2, h3, h4, h5, h6, hai]
  · intro h1 h2 h3 h4 h5 h6
    cases hai : hasAI c <;>
    simp [Config.validate_required, requiredPairs, aiMissingItem,
      h1, h2, h3, h4, h5, h6, hai]
  · intro h1 h2 h3 h4 h5 h6
    cases hai : hasAI c <;>
    simp [Config.validate_required, requiredPairs, aiMissingItem,
      h1, h2, h3, h4, h5, h6, hai]
  · intro h1 h2 h3 h4 h5 h6
    cases hai : hasAI c <;>
    simp [Config.validate_required, requiredPairs, aiMissingItem,
      h1, h2, h3, h4, h5, h6, hai]
  · intro hai
    cases h1 : truthyStr c.TEMPORAL_ADDRESS <;>
    cases h2 : truthyStr c.TEMPORAL_NAMESPACE <;>
    cases h3 : truthyStr c.TEMPORAL_TASK_QUEUE <;>
    cases h4 : truthyOpt c.DATAFORSEO_LOGIN <;>
    cases h5 : truthyOpt c.DATAFORSEO_PASSWORD <;>
    cases h6 : truthyOpt c.SERPER_API_KEY <;>
    simp [Config.validate_required, requiredPairs, aiMissingItem,
      h1, h2, h3, h4, h5, h6, hai]
  · rw [validate_required_eq_nil_iff]
    simp [requiredPairs]
    tauto

/-- Witness for C4 at a configuration missing exactly the Serper key. -/
theorem C4_witness :
    List.count "SERPER_API_KEY" cfgNoSerper.validate_required = 1 ∧
    cfgNoSerper.validate_required = ["SERPER_API_KEY"] := by
  have h := (C4_validate_required_completeness cfgNoSerper).2.2.2.2.2.1
    (by decide) (by decide) (by decide) (by decide) (by decide) (by decide)
  exact ⟨h.1, h.2 (by decide)⟩

/-- C5: `get_ai_model` decides the provider by the fixed priority
Anthropic, then Google, then OpenAI, purely from key presence; with the
first and third keys but not the second it returns the first provider, and
with none it fails with the configuration error. -/
theorem C5_ai_provider_priority (c : Config) :
    (truthyOpt c.ANTHROPIC_API_KEY = true →
      c.get_ai_model = Except.ok ("anthropic", "claude-3-5-haiku-20241022"))
    ∧ (truthyOpt c.ANTHROPIC_API_KEY = false →
      truthyOpt c.GOOGLE_API_KEY = true →
      c.get_ai_model = Except.ok ("google-gla", "gemini-1.5-flash"))
    ∧ (truthyOpt c.ANTHROPIC_API_KEY = false →
      truthyOpt c.GOOGLE_API_KEY = false →
      truthyOpt c.OPENAI_API_KEY = true →
      c.get_ai_model = Except.ok ("openai", "gpt-4o-mini"))
    ∧ (truthyOpt c.ANTHROPIC_API_KEY = false →
      truthyOpt c.GOOGLE_API_KEY = false →
      truthyOpt c.OPENAI_API_KEY = false →
      c.get_ai_model = Except.error "No AI API key configured") := by
  refine ⟨?_, ?_, ?_, ?_⟩ <;> intros <;> simp [Config.get_ai_model, *]

/-- Witness for C5: Anthropic and OpenAI keys set, Google absent. -/
theorem C5_witness :
    ({ cfgValid with OPENAI_API_KEY := some "openai-key" } :
        Config).get_ai_model =
      Except.ok ("anthropic", "claude-3-5-haiku-20241022") :=
  (C5_ai_provider_priority _).1 (by decide)

/-- C9: the three orchestration settings carry non-empty built-in defaults;
with the variable absent they take the default and are never reported
missing, and each is reported missing exactly when the variable is set to
the empty string. -/
theorem C9_orchestration_defaults (e : Env) :
    ((e.TEMPORAL_ADDRESS = none →
        (loadConfig e).TEMPORAL_ADDRESS = "localhost:7233" ∧
        "TEMPORAL_ADDRESS" ∉ (loadConfig e).validate_required)
      ∧ ("TEMPORAL_ADDRESS" ∈ (loadConfig e).validate_required ↔
          e.TEMPORAL_ADDRESS = some ""))
    ∧ ((e.TEMPORAL_NAMESPACE = none →
        (loadConfig e).TEMPORAL_NAMESPACE = "default" ∧
        "TEMPORAL_NAMESPACE" ∉ (loadConfig e).validate_required)
      ∧ ("TEMPORAL_NAMESPACE" ∈ (loadConfig e).validate_required ↔
          e.TEMPORAL_NAMESPACE = some ""))
    ∧ ((e.TEMPORAL_TASK_QUEUE = none →
        (loadConfig e).TEMPORAL_TASK_QUEUE = "quest-content-queue" ∧
        "TEMPORAL_TASK_QUEUE" ∉ (loadConfig e).validate_required)
      ∧ ("TEMPORAL_TASK_QUEUE" ∈ (loadConfig e).validate_required ↔
          e.TEMPORAL_TASK_QUEUE = some "")) := by
  refine ⟨⟨?_, ?_⟩, ⟨?_, ?_⟩, ⟨?_, ?_⟩⟩
  · intro h
    refine ⟨by simp [loadConfig, getenvD, h], ?_⟩
    rw [mem_validate_required _ _ (by decide)]
    simp [requiredPairs, loadConfig, getenvD, h, truthyStr]
  · rw [mem_validate_required _ _ (by decide)]
    cases he : e.TEMPORAL_ADDRESS <;>
      simp [requiredPairs, loadConfig, getenvD, truthyStr, he]
  · intro h
    refine ⟨by simp [loadConfig, getenvD, h], ?_⟩
    rw [mem_validate_required _ _ (by decide)]
    simp [requiredPairs, loadConfig, getenvD, h, truthyStr]
  · rw [mem_validate_required _ _ (by decide)]
    cases he : e.TEMPORAL_NAMESPACE <;>
      simp [requiredPairs, loadConfig, getenvD, truthyStr, he]
  · intro h
    refine ⟨by simp [loadConfig, getenvD, h], ?_⟩
    rw [mem_validate_required _ _ (by decide)]
    simp [requiredPairs, loadConfig, getenvD, h, truthyStr]
  · rw [mem_validate_required _ _ (by decide)]
    cases he : e.TEMPORAL_TASK_QUEUE <;>
      simp [requiredPairs, loadConfig, getenvD, truthyStr, he]

/-- Witness for C9 at the all-absent environment. -/
theorem C9_witness :
    (loadConfig envEmpty).TEMPORAL_ADDRESS = "localhost:7233" ∧
    "TEMPORAL_ADDRESS" ∉ (loadConfig envEmpty).validate_required :=
  (C9_orchestration_defaults envEmpty).1.1 rfl

/-- C10: the sanitized export depends on credentials only through their
presence — two configurations agreeing on the non-secret settings and on
credential presence export identical dictionaries — and every string value
in the export is one of the five non-secret settings. -/
theorem C10_sanitized_export (c1 c2 : Config)
    (ha : c1.TEMPORAL_ADDRESS = c2.TEMPORAL_ADDRESS)
    (hn : c1.TEMPORAL_NAMESPACE = c2.TEMPORAL_NAMESPACE)
    (hq : c1.TEMPORAL_TASK_QUEUE = c2.TEMPORAL_TASK_QUEUE)
    (he : c1.ENVIRONMENT = c2.ENVIRONMENT)
    (hd : c1.DEFAULT_APP = c2.DEFAULT_APP)
    (hdb : truthyStr c1.DATABASE_URL = truthyStr c2.DATABASE_URL)
    (hdl : truthyOpt c1.DATAFORSEO_LOGIN = truthyOpt c2.DATAFORSEO_LOGIN)
    (hdp : truthyOpt c1.DATAFORSEO_PASSWORD = truthyOpt c2.DATAFORSEO_PASSWORD)
    (hse : truthyOpt c1.SERPER_API_KEY = truthyOpt c2.SERPER_API_KEY)
    (hz : truthyOpt c1.ZEP_API_KEY = truthyOpt c2.ZEP_API_KEY)
    (hg : truthyOpt c1.GOOGLE_API_KEY = truthyOpt c2.GOOGLE_API_KEY)
    (ho : truthyOpt c1.OPENAI_API_KEY = truthyOpt c2.OPENAI_API_KEY)
    (han : truthyOpt c1.ANTHROPIC_API_KEY = truthyOpt c2.ANTHROPIC_API_KEY) :
    c1.as_dict = c2.as_dict
    ∧ (∀ s : String, ConfigValue.str s ∈ (c1.as_dict).map Prod.snd →
        s = c1.TEMPORAL_ADDRESS ∨ s = c1.TEMPORAL_NAMESPACE ∨
        s = c1.TEMPORAL_TASK_QUEUE ∨ s = c1.ENVIRONMENT ∨
        s = c1.DEFAULT_APP) := by
  constructor
  · simp [Config.as_dict, ha, hn, hq, he, hd, hdb, hdl, hdp, hse, hz, hg,
      ho, han]
  · intro s hs
    simp [Config.as_dict] at hs
    tauto

/-- Witness for C10: two configurations with the same presence pattern but
different secret values export the same dictionary. -/
theorem C10_witness : cfgValid.as_dict = cfgValidOtherSecrets.as_dict :=
  (C10_sanitized_export cfgValid cfgValidOtherSecrets rfl rfl rfl rfl rfl
    (by decide) (by decide) (by decide) (by decide) (by decide) (by decide)
    (by decide) (by decide)).1

/-! ## Helper lemmas on the schedule store -/

/-- A key is absent from the store exactly when its record count is zero. -/
theorem lookupSchedule_eq_none_iff (st : BackendState) (key : String) :
    lookupSchedule st key = none ↔ countKey st key = 0 := by
  induction st with
  | nil => simp [lookupSchedule, countKey]
  | cons p rest ih =>
    obtain ⟨k, r⟩ := p
    by_cases h : k = key <;> simp [lookupSchedule, countKey, h, ih]

/-- One `create_schedule` call on an absent key: creation succeeds, the
built record is inserted, and the trace is fetch then create. -/
theorem stepSchedule_absent (queue app : String) (st : BackendState)
    (h : lookupSchedule st (schedule_id_of app) = none) :
    stepSchedule queue st app =
      (Outcome.created,
       (schedule_id_of app, builtRecord queue app) :: st,
       [PEvent.fetchAttempt (schedule_id_of app),
        PEvent.createAttempt (schedule_id_of app) (builtRecord queue app)]) := by
  simp [stepSchedule, wellFetch, wellCreate, h, create_schedule_go]

/-- One `create_schedule` call on a present key: the call reports
"already exists", leaves the store untouched, and only fetches. -/
theorem stepSchedule_present (queue app : String) (st : BackendState)
    (r : ScheduleRecord)
    (h : lookupSchedule st (schedule_id_of app) = some r) :
    stepSchedule queue st app =
      (Outcome.alreadyExists, st,
       [PEvent.fetchAttempt (schedule_id_of app)]) := by
  simp [stepSchedule, wellFetch, wellCreate, h, create_schedule_go]

/-- After one call the key's record count is exactly one. -/
theorem stepSchedule_count (queue app : String) (st : BackendState)
    (h : countKey st (schedule_id_of app) ≤ 1) :
    countKey (stepSchedule queue st app).2.1 (schedule_id_of app) = 1 := by
  cases hl : lookupSchedule st (schedule_id_of app) with
  | none =>
    rw [stepSchedule_absent queue app st hl]
    have h0 : countKey st (schedule_id_of app) = 0 :=
      (lookupSchedule_eq_none_iff st _).mp hl
    simp [countKey, h0]
  | some r =>
    rw [stepSchedule_present queue app st r hl]
    have hne : countKey st (schedule_id_of app) ≠ 0 := by
      intro h0
      rw [← lookupSchedule_eq_none_iff] at h0
      simp [h0] at hl
    show countKey st (schedule_id_of app) = 1
    omega

/-- Iterated calls preserve a count of one. -/
theorem iterateSchedule_count_one (queue app : String) :
    ∀ (n : Nat) (st : BackendState),
      countKey st (schedule_id_of app) = 1 →
      countKey (iterateSchedule queue app n st) (schedule_id_of app) = 1 := by
  intro n
  induction n with
  | zero =>
    intro st h
    simpa [iterateSchedule] using h
  | succ m ih =>
    intro st h
    rw [iterateSchedule]
    exact ih _ (stepSchedule_count queue app st (by omega))

/-! ## Claims about schedule registration -/

/-- C1: registration is idempotent — starting from any store holding at
most one record for the app's key, any positive number of sequential
`create_schedule` calls leaves exactly one record under
`news-monitor-<app>`; and whenever the fetch finds the schedule, the call
returns "already exists", leaves the store unchanged, and its trace is the
fetch alone (creation is never invoked). -/
theorem C1_registration_idempotent (queue app : String) (st : BackendState)
    (n : Nat) (hn : 1 ≤ n)
    (hwf : countKey st (schedule_id_of app) ≤ 1) :
    countKey (iterateSchedule queue app n st) (schedule_id_of app) = 1
    ∧ (∀ r : ScheduleRecord,
        lookupSchedule st (schedule_id_of app) = some r →
        stepSchedule queue st app =
          (Outcome.alreadyExists, st,
           [PEvent.fetchAttempt (schedule_id_of app)])) := by
  constructor
  · obtain ⟨m, rfl⟩ : ∃ m, n = m + 1 := ⟨n - 1, by omega⟩
    rw [iterateSchedule]
    exact iterateSchedule_count_one queue app m _
      (stepSchedule_count queue app st hwf)
  · intro r hr
    exact stepSchedule_present queue app st r hr

/-- Witness for C1: two calls on an initially empty store. -/
theorem C1_witness :
    countKey
      (iterateSchedule "quest-content-queue" "placement" 2
        ([] : BackendState))
      (schedule_id_of "placement") = 1 :=
  (C1_registration_idempotent "quest-content-queue" "placement" [] 2
    (by decide) (by decide)).1

/-- C2 counterexample: a backend-error fetch failure (not a not-found one)
is also treated as absence — the call proceeds to submit creation and
reports success instead of propagating the fetch error. -/
theorem C2_counterexample :
    (create_schedule_go "quest-content-queue" "placement"
        FetchOutcome.backendErr CreateOutcome.success).1 = Outcome.created
    ∧ (create_schedule_go "quest-content-queue" "placement"
        FetchOutcome.backendErr CreateOutcome.success).1 ≠ Outcome.raised
    ∧ PEvent.createAttempt (schedule_id_of "placement")
        (builtRecord "quest-content-queue" "placement")
      ∈ (create_schedule_go "quest-content-queue" "placement"
          FetchOutcome.backendErr CreateOutcome.success).2 := by
  refine ⟨rfl, by decide, ?_⟩
  simp [create_schedule_go]

/-- C2 amended: `except Exception: pass` makes every fetch failure — not
only not-found — behave as absence: the call is identical to the not-found
case and always goes on to submit creation. -/
theorem C2_amended_any_fetch_failure_creates (queue app : String)
    (fo : FetchOutcome) (co : CreateOutcome)
    (h : fo ≠ FetchOutcome.success) :
    create_schedule_go queue app fo co =
      create_schedule_go queue app FetchOutcome.notFoundErr co
    ∧ PEvent.createAttempt (schedule_id_of app) (builtRecord queue app)
        ∈ (create_schedule_go queue app fo co).2 := by
  cases fo <;> cases co <;> simp_all [create_schedule_go]

/-- Witness for the amended C2 at a backend fetch failure. -/
theorem C2_witness :
    PEvent.createAttempt (schedule_id_of "placement")
        (builtRecord "quest-content-queue" "placement")
      ∈ (create_schedule_go "quest-content-queue" "placement"
          FetchOutcome.backendErr CreateOutcome.backendErr).2 :=
  (C2_amended_any_fetch_failure_creates "quest-content-queue" "placement"
    FetchOutcome.backendErr CreateOutcome.backendErr (by decide)).2

/-- C3: on an absent key, registration submits and stores a Schedule with
key `news-monitor-<app>`, cron `0 9 * * *`, overlap policy SKIP, id-reuse
policy 1, the configured queue, and the fixed WorkflowInput; the records
built for the two startup apps differ only in the `app` field. -/
theorem C3_created_schedule_shape (queue app : String) (st : BackendState)
    (h : lookupSchedule st (schedule_id_of app) = none) :
    (stepSchedule queue st app).1 = Outcome.created
    ∧ PEvent.createAttempt (schedule_id_of app) (builtRecord queue app)
        ∈ (stepSchedule queue st app).2.2
    ∧ lookupSchedule (stepSchedule queue st app).2.1 (schedule_id_of app) =
        some (builtRecord queue app)
    ∧ builtRecord queue app =
        { description :=
            { schedule := { cron := "0 9 * * *" }
              action :=
                { workflow_type := "NewsCreationWorkflow"
                  input := [ { app := app
                               min_relevance_score := 7/10
                               auto_create_articles := true
                               max_articles_to_create := 3 } ]
                  task_queue := queue
                  workflow_id_reuse_policy := 1 } }
          overlap_policy := OverlapPolicy.SKIP }
    ∧ schedule_id_of app = "news-monitor-" ++ app
    ∧ builtRecord queue "placement" =
        withApp (builtRecord queue "relocation") "placement"
    ∧ startupApps.map Prod.fst = ["placement", "relocation"] := by
  rw [stepSchedule_absent queue app st h]
  refine ⟨rfl, ?_, ?_, rfl, rfl, ?_, rfl⟩
  · simp
  · simp [lookupSchedule]
  · simp [builtRecord, withApp]

/-- Witness for C3 on the empty store. -/
theorem C3_witness :
    (stepSchedule "quest-content-queue" ([] : BackendState) "placement").1 =
      Outcome.created :=
  (C3_created_schedule_shape "quest-content-queue" "placement" [] rfl).1

/-! ## Helper lemmas on process traces -/

/-- A single registration call never touches `close`. -/
theorem closeSession_not_mem_go (queue app : String)
    (fo : FetchOutcome) (co : CreateOutcome) :
    PEvent.closeSession ∉ (create_schedule_go queue app fo co).2 := by
  cases fo <;> cases co <;> simp [create_schedule_go]

/-- The registration loop never touches `close`. -/
theorem closeSession_not_mem_run_apps (queue : String)
    (f : String → FetchOutcome) (cr : String → CreateOutcome)
    (l : List (String × String)) :
    PEvent.closeSession ∉ (run_apps queue f cr l).2 := by
  induction l with
  | nil => simp [run_apps]
  | cons a rest ih =>
    obtain ⟨app, disp⟩ := a
    have hgo := closeSession_not_mem_go queue app
      (f (schedule_id_of app)) (cr (schedule_id_of app))
    by_cases h :
        (create_schedule_go queue app (f (schedule_id_of app))
          (cr (schedule_id_of app))).1 = Outcome.raised <;>
      simp_all [run_apps, List.mem_append]

/-- Creation submissions in one registration call, counted per key: at
most one, and none for another app's key. -/
theorem countCreates_go_le (queue app : String) (fo : FetchOutcome)
    (co : CreateOutcome) (key : String) :
    countCreates (create_schedule_go queue app fo co).2 key ≤
      if key = schedule_id_of app then 1 else 0 := by
  by_cases h : key = schedule_id_of app
  · subst h
    cases fo <;> cases co <;> simp [create_schedule_go, countCreates]
  · have hne : (schedule_id_of app == key) = false := by
      rw [beq_eq_false_iff_ne]
      exact fun hh => h hh.symm
    cases fo <;> cases co <;>
      simp [create_schedule_go, countCreates, h, hne]

/-- `countCreates` distributes over trace concatenation. -/
theorem countCreates_append (a b : List PEvent) (key : String) :
    countCreates (a ++ b) key = countCreates a key + countCreates b key := by
  simp [countCreates, List.filter_append]

/-- The registration loop submits nothing under a key outside its app
list. -/
theorem countCreates_run_apps_eq_zero (queue : String)
    (f : String → FetchOutcome) (cr : String → CreateOutcome)
    (l : List (String × String)) (key : String)
    (h : key ∉ l.map (fun a => schedule_id_of a.1)) :
    countCreates (run_apps queue f cr l).2 key = 0 := by
  induction l with
  | nil => simp [run_apps, countCreates]
  | cons a rest ih =>
    obtain ⟨app, disp⟩ := a
    simp only [List.map_cons, List.mem_cons, not_or] at h
    have hgo := countCreates_go_le queue app
      (f (schedule_id_of app)) (cr (schedule_id_of app)) key
    rw [if_neg h.1] at hgo
    by_cases hr :
        (create_schedule_go queue app (f (schedule_id_of app))
          (cr (schedule_id_of app))).1 = Outcome.raised
    · simp only [run_apps, hr, if_true]
      omega
    · simp only [run_apps, hr, if_false]
      rw [countCreates_append]
      have := ih h.2
      omega

/-- With pairwise-distinct schedule ids, the registration loop submits
creation at most once per key. -/
theorem countCreates_run_apps_le_one (queue : String)
    (f : String → FetchOutcome) (cr : String → CreateOutcome)
    (l : List (String × String)) (key : String)
    (hnd : (l.map (fun a => schedule_id_of a.1)).Nodup) :
    countCreates (run_apps queue f cr l).2 key ≤ 1 := by
  induction l with
  | nil => simp [run_apps, countCreates]
  | cons a rest ih =>
    obtain ⟨app, disp⟩ := a
    simp only [List.map_cons, List.nodup_cons] at hnd
    have hgo := countCreates_go_le queue app
      (f (schedule_id_of app)) (cr (schedule_id_of app)) key
    by_cases hr :
        (create_schedule_go queue app (f (schedule_id_of app))
          (cr (schedule_id_of app))).1 = Outcome.raised
    · simp only [run_apps, hr, if_true]
      by_cases hk : key = schedule_id_of app
      · rw [if_pos hk] at hgo
        omega
      · rw [if_neg hk] at hgo
        omega
    · simp only [run_apps, hr, if_false]
      rw [countCreates_append]
      by_cases hk : key = schedule_id_of app
      · rw [if_pos hk] at hgo
        have hz : countCreates (run_apps queue f cr rest).2 key = 0 := by
          apply countCreates_run_apps_eq_zero
          rw [hk]
          exact hnd.1
        omega
      · rw [if_neg hk] at hgo
        have := ih hnd.2
        omega

/-- Events other than creation submissions never count. -/
theorem countCreates_cons_connect (tr : List PEvent) (key : String) :
    countCreates (PEvent.connectAttempt :: tr) key = countCreates tr key :=
  rfl

/-- A trailing `close` never counts as a creation submission. -/
theorem countCreates_append_close (tr : List PEvent) (key : String) :
    countCreates (tr ++ [PEvent.closeSession]) key = countCreates tr key := by
  rw [countCreates_append]
  rfl

/-- The whole registrar process submits creation at most once per key. -/
theorem countCreates_scheduler_le_one (c : Config) (conn : ConnectOutcome)
    (f : String → FetchOutcome) (cr : String → CreateOutcome)
    (key : String) :
    countCreates (scheduler_main c conn f cr).2 key ≤ 1 := by
  have hrun := countCreates_run_apps_le_one c.TEMPORAL_TASK_QUEUE f cr
    startupApps key (by decide)
  by_cases hv : c.validate_required = []
  · cases conn
    · by_cases hr : (run_apps c.TEMPORAL_TASK_QUEUE f cr startupApps).1
      · simp only [scheduler_main, hv, ne_eq, not_true_eq_false,
          if_false, hr, if_true]
        rw [countCreates_cons_connect]
        exact hrun
      · simp only [scheduler_main, hv, ne_eq, not_true_eq_false,
          if_false, hr, Bool.false_eq_true]
        rw [countCreates_append, countCreates_cons_connect]
        have hclose : countCreates [PEvent.closeSession] key = 0 := rfl
        omega
    · simp [scheduler_main, hv, countCreates]
  · simp [scheduler_main, hv, countCreates]

/-! ## Claims about processes -/

/-- C6 counterexample: with a valid configuration, a successful
connection, and a backend that fails the creation submission, the
registrar process ends with a propagating exception and a trace that
contains the connection but never `close` — the session is not closed on
this exit path. -/
theorem C6_counterexample :
    PEvent.connectAttempt ∈
      (scheduler_main cfgValid ConnectOutcome.success
        (fun _ => FetchOutcome.notFoundErr)
        (fun _ => CreateOutcome.backendErr)).2
    ∧ PEvent.closeSession ∉
      (scheduler_main cfgValid ConnectOutcome.success
        (fun _ => FetchOutcome.notFoundErr)
        (fun _ => CreateOutcome.backendErr)).2
    ∧ (scheduler_main cfgValid ConnectOutcome.success
        (fun _ => FetchOutcome.notFoundErr)
        (fun _ => CreateOutcome.backendErr)).1 = MainResult.raisedExc := by
  decide

/-- C6 amended: the registrar invokes `close` exactly on the fully
successful path — on any exit other than normal completion the session is
left unclosed — and the worker process never invokes `close` on any exit
path. -/
theorem C6_amended_close_paths (c : Config) (conn : ConnectOutcome)
    (f : String → FetchOutcome) (cr : String → CreateOutcome)
    (ro : RunOutcome) :
    ((scheduler_main c conn f cr).1 = MainResult.completed →
      PEvent.closeSession ∈ (scheduler_main c conn f cr).2)
    ∧ ((scheduler_main c conn f cr).1 ≠ MainResult.completed →
      PEvent.closeSession ∉ (scheduler_main c conn f cr).2)
    ∧ PEvent.closeSession ∉ (worker_main c conn ro).2 := by
  have hrun := closeSession_not_mem_run_apps c.TEMPORAL_TASK_QUEUE f cr
    startupApps
  by_cases hv : c.validate_required = []
  · cases conn
    · by_cases hr : (run_apps c.TEMPORAL_TASK_QUEUE f cr startupApps).1 <;>
        cases ro <;>
          simp_all [scheduler_main, worker_main, List.mem_append]
    · cases ro <;> simp [scheduler_main, worker_main, hv]
  · cases ro <;> simp [scheduler_main, worker_main, hv]

/-- Witness for the amended C6: the worker never closes the session. -/
theorem C6_witness :
    PEvent.closeSession ∉
      (worker_main cfgValid ConnectOutcome.success RunOutcome.failedRun).2 :=
  (C6_amended_close_paths cfgValid ConnectOutcome.success
    (fun _ => FetchOutcome.notFoundErr) (fun _ => CreateOutcome.success)
    RunOutcome.failedRun).2.2

/-- C7: the worker fails fast before the dispatch loop when the queue name
is empty (configuration validation exits the process first), and any run
that reaches the dispatch loop has a non-empty queue name and the fixed
non-empty handler registry. -/
theorem C7_worker_fail_fast (c : Config) (conn : ConnectOutcome)
    (ro : RunOutcome) :
    (c.TEMPORAL_TASK_QUEUE = "" →
      worker_main c conn ro = (MainResult.exited 1, []))
    ∧ (PEvent.dispatchLoop ∈ (worker_main c conn ro).2 →
      c.TEMPORAL_TASK_QUEUE ≠ "" ∧ worker_workflows ++ worker_activities ≠ []) := by
  constructor
  · intro hq
    have hv : c.validate_required ≠ [] := by
      rw [ne_eq, validate_required_eq_nil_iff]
      simp [hq, truthyStr]
    simp [worker_main, hv]
  · intro hmem
    by_cases hv : c.validate_required = []
    · refine ⟨?_, by decide⟩
      have hval := (validate_required_eq_nil_iff c).mp hv
      have hq := hval.2.2.1
      intro hempty
      rw [hempty] at hq
      simp [truthyStr] at hq
    · simp [worker_main, hv] at hmem

/-- Witness for C7 at an explicitly empty queue name. -/
theorem C7_witness :
    worker_main cfgNoQueue ConnectOutcome.success RunOutcome.failedRun =
      (MainResult.exited 1, []) :=
  (C7_worker_fail_fast cfgNoQueue ConnectOutcome.success
    RunOutcome.failedRun).1 rfl

/-- C8: a failing creation submission (already-exists or backend error)
raises out of `create_schedule`; the registrar never retries (at most one
submission per key in the whole process trace); a raised registration
makes the process exit 1; missing configuration exits 1 with an empty
trace — before any connection attempt; and an interrupt exits 0. -/
theorem C8_failure_exit_codes (c : Config) (conn : ConnectOutcome)
    (f : String → FetchOutcome) (cr : String → CreateOutcome)
    (app key : String) (co : CreateOutcome) (r : MainResult) :
    (co ≠ CreateOutcome.success →
      (create_schedule_go c.TEMPORAL_TASK_QUEUE app
        FetchOutcome.notFoundErr co).1 = Outcome.raised)
    ∧ countCreates (scheduler_main c conn f cr).2 key ≤ 1
    ∧ ((scheduler_main c conn f cr).1 = MainResult.raisedExc →
      process_exit_code (scheduler_main c conn f cr).1 false = 1)
    ∧ (c.validate_required = [] → conn = ConnectOutcome.success →
      (run_apps c.TEMPORAL_TASK_QUEUE f cr startupApps).1 = true →
      (scheduler_main c conn f cr).1 = MainResult.raisedExc)
    ∧ (c.validate_required ≠ [] →
      scheduler_main c conn f cr = (MainResult.exited 1, []))
    ∧ process_exit_code r true = 0 := by
  refine ⟨?_, ?_, ?_, ?_, ?_, ?_⟩
  · intro h
    cases co <;> simp_all [create_schedule_go]
  · exact countCreates_scheduler_le_one c conn f cr key
  · intro h
    rw [h]
    rfl
  · intro hv hc hr
    subst hc
    simp [scheduler_main, hv, hr]
  · intro hv
    simp [scheduler_main, hv]
  · rfl

/-- Witness for C8: missing configuration exits 1 before connecting. -/
theorem C8_witness :
    scheduler_main cfgNoQueue ConnectOutcome.success
      (fun _ => FetchOutcome.notFoundErr)
      (fun _ => CreateOutcome.success) = (MainResult.exited 1, []) :=
  (C8_failure_exit_codes cfgNoQueue ConnectOutcome.success
    (fun _ => FetchOutcome.notFoundErr) (fun _ => CreateOutcome.success)
    "placement" "k" CreateOutcome.backendErr
    MainResult.completed).2.2.2.2.1 (by decide)

end NewsGen
